import Mathlib

/-!
Verification of the metrics engine and collector-exporter of this repository.

The collector-exporter transform functions (`toCollectorAttributes`,
`toCollectorTemporality`, `toCollectorExportMetricServiceRequest`, ...) and the
node transport (`sendWithJson`) are translated directly from the TypeScript
sources.  The metrics engine itself (Meter, instruments, aggregators, the
batch-observer protocol) is exercised by the repository's test suite but its
implementation files are not part of the sources at hand, so those parts are
modelled from the specification, as indicated on each definition.

JavaScript numbers are modelled by integers: no property below depends on
rounding or on non-integral values.  Timestamps are omitted from aggregator
state: no property below concerns them.
-/

namespace OTel

/-! ## Label sets and their canonical hash -/

/-- A label set: a mapping from string keys to string values, given as the list
of its entries. -/
abbrev Labels := List (String × String)

/-- Lexicographic comparison of character lists, used to sort label keys. -/
def charListLe : List Char → List Char → Bool
  | [], _ => true
  | _ :: _, [] => false
  | x :: xs, y :: ys => if x = y then charListLe xs ys else decide (x < y)

/-- Lexicographic comparison of label keys. -/
def keyLe (a b : String) : Bool := charListLe a.data b.data

/-- Order on label entries: compare by key only. -/
def labelRel (a b : String × String) : Prop := keyLe a.1 b.1 = true

instance : DecidableRel labelRel := fun a b => instDecidableEqBool (keyLe a.1 b.1) true

/-- Modelled from the spec: label sets are canonicalized by sorting entries by
key lexicographically (`Utils.hashLabels` is not among the sources at hand; the
test suite pins the output format `|#k1:v1,k2:v2`). -/
def sortLabels (labels : Labels) : Labels := List.insertionSort labelRel labels

/-- Modelled from the spec: the canonical hash of a label set, `|#` followed by
the comma-separated `key:value` pairs with keys sorted lexicographically. -/
def hashLabels (labels : Labels) : String :=
  "|#" ++ String.intercalate "," ((sortLabels labels).map (fun kv => kv.1 ++ ":" ++ kv.2))

/-! ## Aggregators -/

/-- Modelled from the spec: the MinMaxLastSumCount distribution aggregator
state.  `min = none` encodes the initial `+infinity`, `max = none` encodes the
initial `-infinity`. -/
structure Distribution where
  min : Option ℤ
  max : Option ℤ
  last : ℤ
  sum : ℤ
  count : ℕ
deriving DecidableEq

/-- Modelled from the spec: initial distribution state
min = +infinity, max = -infinity, last = 0, sum = 0, count = 0. -/
def distInit : Distribution :=
  { min := none, max := none, last := 0, sum := 0, count := 0 }

/-- `min` against the running minimum, where `none` is `+infinity`. -/
def minUpdate : Option ℤ → ℤ → Option ℤ
  | none, v => some v
  | some m, v => some (min m v)

/-- `max` against the running maximum, where `none` is `-infinity`. -/
def maxUpdate : Option ℤ → ℤ → Option ℤ
  | none, v => some v
  | some m, v => some (max m v)

/-- Modelled from the spec: `update(v)` of the distribution aggregator sets
min = min(min, v), max = max(max, v), last = v, sum += v, count += 1. -/
def Distribution.update (d : Distribution) (v : ℤ) : Distribution :=
  { min := minUpdate d.min v, max := maxUpdate d.max v, last := v,
    sum := d.sum + v, count := d.count + 1 }

/-! ## Bound counter instruments -/

/-- Modelled from the spec: the write operation of a bound Counter.  A disabled
instrument routes writes to a discard path; a negative delta on the monotonic
Counter is a silent no-op; otherwise the Sum aggregator adds the delta. -/
def counterAdd (disabled : Bool) (total delta : ℤ) : ℤ :=
  if disabled then total else if delta < 0 then total else total + delta

/-- Modelled from the spec: a Counter instrument, holding its `disabled`
configuration and its registry of bound instruments, keyed by the canonical
label hash; each bound instrument owns one Sum aggregator (its running
total). -/
structure CounterMetric where
  disabled : Bool
  instruments : List (String × ℤ)
deriving DecidableEq

/-- A freshly created (enabled) Counter with no bound instruments. -/
def counterNew : CounterMetric := { disabled := false, instruments := [] }

/-- Modelled from the spec: `bind(labels)` returns the bound instrument for the
canonical label hash, creating it lazily with a zeroed aggregator on first use;
repeated `bind` with an equivalent label set returns the same bound instrument.
The returned hash is the identity of the bound instrument. -/
def CounterMetric.bind (c : CounterMetric) (labels : Labels) : String × CounterMetric :=
  let h := hashLabels labels
  match c.instruments.lookup h with
  | some _ => (h, c)
  | none => (h, { c with instruments := (h, (0 : ℤ)) :: c.instruments })

/-- Modelled from the spec: `add(delta)` through the bound instrument named by
`key` applies `counterAdd` to its aggregator. -/
def CounterMetric.addBound (c : CounterMetric) (key : String) (delta : ℤ) : CounterMetric :=
  { c with instruments :=
      c.instruments.map (fun kv =>
        if kv.1 = key then (kv.1, counterAdd c.disabled kv.2 delta) else kv) }

/-- Modelled from the spec: the checkpoint read after `collect()` snapshots the
aggregator of the bound instrument named by `key`. -/
def CounterMetric.checkpoint (c : CounterMetric) (key : String) : Option ℤ :=
  c.instruments.lookup key

/-! ## Bound value recorders -/

/-- Modelled from the spec: the write operation of a bound ValueRecorder.  A
disabled instrument discards the write; with `absolute` set (the default), a
negative value is a silent no-op; otherwise the write delegates to the
distribution aggregator's `update`. -/
def recorderRecord (disabled absolute : Bool) (d : Distribution) (v : ℤ) : Distribution :=
  if disabled then d
  else if absolute && decide (v < 0) then d
  else d.update v

/-! ## Metric descriptors and the Meter registry -/

/-- The value type of an instrument (`@opentelemetry/api` ValueType). -/
inductive ValueType
  | INT
  | DOUBLE
deriving DecidableEq

/-- Modelled from the spec: the metric kind enumeration.  Its defining module
is not among the sources at hand.  The spec lists COUNTER, UP_DOWN_COUNTER,
VALUE_RECORDER and VALUE_OBSERVER as descriptor kinds, the test suite uses a
BATCH_OBSERVER instrument variant, and the collector transform additionally
references the legacy members OBSERVER and MEASURE; all members are distinct
enum members. -/
inductive MetricKind
  | COUNTER
  | UP_DOWN_COUNTER
  | VALUE_RECORDER
  | VALUE_OBSERVER
  | BATCH_OBSERVER
  | OBSERVER
  | MEASURE
deriving DecidableEq

/-- The static, immutable descriptor created at instrument-creation time. -/
structure MetricDescriptor where
  name : String
  description : String
  unit : String
  metricKind : MetricKind
  valueType : ValueType
  monotonic : Bool
deriving DecidableEq

/-- Configuration accepted by the Meter `create*` calls. -/
structure MetricOptions where
  description : String
  unit : String
  disabled : Bool
  absolute : Bool
  valueType : ValueType
deriving DecidableEq

/-- The defaults applied when a `create*` call passes no configuration:
empty description, unit `1`, enabled, absolute, DOUBLE values. -/
def defaultOptions : MetricOptions :=
  { description := "", unit := "1", disabled := false, absolute := true,
    valueType := ValueType.DOUBLE }

/-- Modelled from the spec: only a Counter is monotonic. -/
def isMonotonic (kind : MetricKind) : Bool :=
  match kind with
  | MetricKind.COUNTER => true
  | _ => false

/-- The descriptor built for a newly registered instrument. -/
def mkDescriptor (name : String) (kind : MetricKind) (opts : MetricOptions) : MetricDescriptor :=
  { name := name, description := opts.description, unit := opts.unit,
    metricKind := kind, valueType := opts.valueType, monotonic := isMonotonic kind }

/-- Modelled from the spec: a character allowed after the first position of an
instrument name: ASCII letters, digits, underscore, dot and hyphen. -/
def isNameBodyChar (c : Char) : Bool :=
  c.isAlpha || c.isDigit || c = '_' || c = '.' || c = '-'

/-- Modelled from the spec: an instrument name is valid when it is non-empty,
starts with an ASCII letter and continues with letters, digits, `_`, `.`
and `-` only (the regular expression given in the spec). -/
def validName (name : String) : Bool :=
  match name.data with
  | [] => false
  | c :: cs => c.isAlpha && cs.all isNameBodyChar

/-- The result of a `create*` call: either the shared no-op instrument (all
operations on it succeed but discard data) or a real instrument, identified
here by its descriptor. -/
inductive CreatedMetric
  | noop
  | metric (descriptor : MetricDescriptor)
deriving DecidableEq

/-- Modelled from the spec: a Meter's instrument registry, keyed by instrument
name, in registration order.  The checkpoint of a collection cycle carries one
record per registered instrument. -/
structure Meter where
  registry : List (String × MetricDescriptor)
deriving DecidableEq

/-- Modelled from the spec: a `create*` call name-validates; an invalid or
empty name yields the no-op instrument and registers nothing; an
already-registered name returns the existing instrument unchanged, silently
ignoring the new configuration; otherwise the instrument is constructed and
registered. -/
def Meter.createMetric (m : Meter) (kind : MetricKind) (name : String)
    (opts : MetricOptions) : CreatedMetric × Meter :=
  if validName name then
    match m.registry.lookup name with
    | some d => (CreatedMetric.metric d, m)
    | none =>
      let d := mkDescriptor name kind opts
      (CreatedMetric.metric d, { registry := m.registry ++ [(name, d)] })
  else (CreatedMetric.noop, m)

/-! ## The batch-observer cancellation protocol -/

/-- Modelled from the spec: the state of a `BatchObserverResult` during one
collection cycle: the cancellation flag set by the timeout timer, plus the
bound instruments (distribution aggregators keyed by canonical label hash)
created by accepted `observe` calls. -/
structure BatchObserverState where
  cancelled : Bool
  instruments : List (String × Distribution)
deriving DecidableEq

/-- An event during one batch-observer collection cycle: the timeout timer
firing, or the callback chain calling `observe(labels, observation(v))`. -/
inductive BatchEvent
  | timeout
  | observe (labels : Labels) (value : ℤ)
deriving DecidableEq

/-- Modelled from the spec: the timer firing marks the result cancelled; an
`observe` on a cancelled result is a silent no-op; an accepted `observe` binds
(or reuses) the bound instrument for the label set and applies one aggregator
update. -/
def batchStep (s : BatchObserverState) (e : BatchEvent) : BatchObserverState :=
  match e with
  | BatchEvent.timeout => { s with cancelled := true }
  | BatchEvent.observe labels v =>
    if s.cancelled then s
    else
      let h := hashLabels labels
      match s.instruments.lookup h with
      | some _ =>
        { s with instruments :=
            s.instruments.map (fun kv =>
              if kv.1 = h then (kv.1, kv.2.update v) else kv) }
      | none =>
        { s with instruments := (h, distInit.update v) :: s.instruments }

/-- The state at callback invocation: not cancelled, no bound instruments. -/
def batchInit : BatchObserverState := { cancelled := false, instruments := [] }

/-- One collection cycle of a batch observer, as the fold of its events. -/
def batchRun (evs : List BatchEvent) : BatchObserverState :=
  evs.foldl batchStep batchInit

/-! ## Collector-exporter transform (translated from `transform.ts`)

The remaining definitions are translated from the sources: the metric half of
the collector transform module and the node JSON transport. -/

/-- A JavaScript attribute value as discriminated by `typeof` in
`toCollectorAttributeKeyValue`: string, boolean, number (always treated as
double), or any other value. -/
inductive JsValue
  | str (s : String)
  | bool (b : Bool)
  | num (n : ℤ)
  | other
deriving DecidableEq

/-- A JavaScript attribute object, as the list of its entries in key order. -/
abbrev Attributes := List (String × JsValue)

/-- `opentelemetryProto.common.v1.ValueType`. -/
inductive AttrValueType
  | STRING
  | INT
  | BOOL
  | DOUBLE
deriving DecidableEq

/-- `opentelemetryProto.common.v1.AttributeKeyValue`. -/
structure AttributeKeyValue where
  key : String
  type : AttrValueType
  stringValue : Option String
  boolValue : Option Bool
  doubleValue : Option ℤ
deriving DecidableEq

/-- `toCollectorAttributeKeyValue`: the type defaults to STRING; a string sets
`stringValue`, a boolean sets `boolValue` and type BOOL, a number sets
`doubleValue` and type DOUBLE (all numbers are treated as double); any other
value keeps type STRING with no value field set. -/
def toCollectorAttributeKeyValue (key : String) (value : JsValue) : AttributeKeyValue :=
  match value with
  | JsValue.str s =>
    { key := key, type := AttrValueType.STRING, stringValue := some s,
      boolValue := none, doubleValue := none }
  | JsValue.bool b =>
    { key := key, type := AttrValueType.BOOL, stringValue := none,
      boolValue := some b, doubleValue := none }
  | JsValue.num n =>
    { key := key, type := AttrValueType.DOUBLE, stringValue := none,
      boolValue := none, doubleValue := some n }
  | JsValue.other =>
    { key := key, type := AttrValueType.STRING, stringValue := none,
      boolValue := none, doubleValue := none }

/-- `toCollectorAttributes`: convert every entry of an attribute object. -/
def toCollectorAttributes (attributes : Attributes) : List AttributeKeyValue :=
  attributes.map (fun kv => toCollectorAttributeKeyValue kv.1 kv.2)

/-- `opentelemetryProto.common.v1.StringKeyValue`. -/
structure StringKeyValue where
  key : String
  value : String
deriving DecidableEq

/-- `toCollectorLabels`: metric labels become plain string key-value pairs. -/
def toCollectorLabels (labels : Labels) : List StringKeyValue :=
  labels.map (fun kv => { key := kv.1, value := kv.2 })

/-- A `Resource`: its immutable attribute set (`resource.labels`). -/
structure Resource where
  labels : Attributes
deriving DecidableEq

/-- `Resource.empty()`. -/
def Resource.empty : Resource := { labels := [] }

/-- `Object.assign` of object `b` over object `a` into a fresh target:
existing keys keep their position and take the later value, new keys are
appended in order. -/
def objectAssign (a b : Attributes) : Attributes :=
  (a.map (fun kv =>
    match b.lookup kv.1 with
    | some v => (kv.1, v)
    | none => kv))
  ++ b.filter (fun kv => (a.lookup kv.1).isNone)

/-- `opentelemetryProto.resource.v1.Resource`. -/
structure ProtoResource where
  attributes : List AttributeKeyValue
  droppedAttributesCount : ℕ
deriving DecidableEq

/-- `toCollectorResource`: merge the additional attributes with the resource's
labels (the resource's labels winning) and convert them. -/
def toCollectorResource (resource : Option Resource) (additionalAttributes : Attributes) :
    ProtoResource :=
  { attributes :=
      toCollectorAttributes
        (objectAssign additionalAttributes
          (match resource with
           | some r => r.labels
           | none => [])),
    droppedAttributesCount := 0 }

/-- `opentelemetryProto.metrics.v1.MetricDescriptorType`. -/
inductive MetricDescriptorType
  | INVALID_TYPE
  | INT64
  | MONOTONIC_INT64
  | DOUBLE
  | MONOTONIC_DOUBLE
deriving DecidableEq

/-- `opentelemetryProto.metrics.v1.MetricDescriptorTemporality`. -/
inductive MetricDescriptorTemporality
  | INVALID_TEMPORALITY
  | DELTA
  | CUMULATIVE
  | INSTANTANEOUS
deriving DecidableEq

/-- `toCollectorType`: INT descriptors map to MONOTONIC_INT64 or INT64 by the
monotonic flag, DOUBLE descriptors to MONOTONIC_DOUBLE or DOUBLE; anything
else is INVALID_TYPE. -/
def toCollectorType (descriptor : MetricDescriptor) : MetricDescriptorType :=
  if descriptor.valueType = ValueType.INT then
    if descriptor.monotonic then MetricDescriptorType.MONOTONIC_INT64
    else MetricDescriptorType.INT64
  else if descriptor.valueType = ValueType.DOUBLE then
    if descriptor.monotonic then MetricDescriptorType.MONOTONIC_DOUBLE
    else MetricDescriptorType.DOUBLE
  else MetricDescriptorType.INVALID_TYPE

/-- `toCollectorTemporality`: COUNTER maps to CUMULATIVE, OBSERVER to
INSTANTANEOUS, MEASURE to DELTA; every other kind falls through to
INVALID_TEMPORALITY. -/
def toCollectorTemporality (descriptor : MetricDescriptor) : MetricDescriptorTemporality :=
  if descriptor.metricKind = MetricKind.COUNTER then
    MetricDescriptorTemporality.CUMULATIVE
  else if descriptor.metricKind = MetricKind.OBSERVER then
    MetricDescriptorTemporality.INSTANTANEOUS
  else if descriptor.metricKind = MetricKind.MEASURE then
    MetricDescriptorTemporality.DELTA
  else MetricDescriptorTemporality.INVALID_TEMPORALITY

/-- A checkpointed `MetricRecord` as consumed by the transform: descriptor,
label set, the aggregator's snapshot point (`toPoint()`, its value and its
timestamp in nanoseconds) and the owning resource. -/
structure MetricRecord where
  descriptor : MetricDescriptor
  labels : Labels
  pointValue : ℤ
  pointTimestampNanos : ℕ
  resource : Resource
deriving DecidableEq

/-- `opentelemetryProto.metrics.v1.MetricDescriptor`. -/
structure ProtoMetricDescriptor where
  name : String
  description : String
  unit : String
  labels : List StringKeyValue
  type : MetricDescriptorType
  temporality : MetricDescriptorTemporality
deriving DecidableEq

/-- `toCollectorMetricDescriptor`. -/
def toCollectorMetricDescriptor (metric : MetricRecord) : ProtoMetricDescriptor :=
  { name := metric.descriptor.name,
    description := metric.descriptor.description,
    unit := metric.descriptor.unit,
    labels := toCollectorLabels metric.labels,
    type := toCollectorType metric.descriptor,
    temporality := toCollectorTemporality metric.descriptor }

/-- A data point (`Int64DataPoint` / `DoubleDataPoint`). -/
structure DataPoint where
  labels : List StringKeyValue
  value : ℤ
  startTimeUnixNano : ℕ
  timeUnixNano : ℕ
deriving DecidableEq

/-- `opentelemetryProto.metrics.v1.Metric`. -/
structure ProtoMetric where
  metricDescriptor : ProtoMetricDescriptor
  doubleDataPoints : List DataPoint
  int64DataPoints : List DataPoint
  summaryDataPoints : List DataPoint
  histogramDataPoints : List DataPoint
deriving DecidableEq

/-- `toCollectorMetric`: one point from the aggregator snapshot, placed in the
int64 list for INT-typed descriptors and in the double list for DOUBLE-typed
descriptors; summary and histogram lists stay empty. -/
def toCollectorMetric (metric : MetricRecord) (startTime : ℕ) : ProtoMetric :=
  let points : DataPoint :=
    { labels := toCollectorLabels metric.labels,
      value := metric.pointValue,
      startTimeUnixNano := startTime,
      timeUnixNano := metric.pointTimestampNanos }
  { metricDescriptor := toCollectorMetricDescriptor metric,
    doubleDataPoints :=
      if metric.descriptor.valueType = ValueType.DOUBLE then [points] else [],
    int64DataPoints :=
      if metric.descriptor.valueType = ValueType.INT then [points] else [],
    summaryDataPoints := [],
    histogramDataPoints := [] }

/-- An instrumentation library identity (name, version). -/
structure InstrumentationLibrary where
  name : String
  version : String
deriving DecidableEq

/-- `opentelemetryProto.metrics.v1.InstrumentationLibraryMetrics`. -/
structure InstrumentationLibraryMetrics where
  metrics : List ProtoMetric
  instrumentationLibrary : InstrumentationLibrary
deriving DecidableEq

/-- `opentelemetryProto.metrics.v1.ResourceMetrics`. -/
structure ResourceMetrics where
  resource : ProtoResource
  instrumentationLibraryMetrics : List InstrumentationLibraryMetrics
deriving DecidableEq

/-- `opentelemetryProto.metrics.v1.ExportMetricsServiceRequest`. -/
structure ExportMetricsServiceRequest where
  resourceMetrics : List ResourceMetrics
deriving DecidableEq

/-- The parts of `CollectorMetricExporterBase` read by the transform: its
configured attributes (`attributes || empty`) and its service name. -/
structure CollectorMetricExporterBase where
  attributes : Attributes
  serviceName : String
deriving DecidableEq

/-- The default instrumentation-library name, built from the SDK info. -/
def sdkLibraryName : String := "opentelemetry - nodejs"

/-- The SDK version reported as the instrumentation-library version. -/
def sdkVersion : String := "0.9.0"

/-- `toCollectorExportMetricServiceRequest`: convert every record, take the
resource of the first record (or the empty resource for an empty list), layer
the exporter attributes plus the `service.name` attribute on it, and wrap the
converted metrics in a single InstrumentationLibraryMetrics block inside a
single ResourceMetrics envelope. -/
def toCollectorExportMetricServiceRequest (metrics : List MetricRecord) (startTime : ℕ)
    (collectorMetricExporterBase : CollectorMetricExporterBase) (name : String) :
    ExportMetricsServiceRequest :=
  let metricsToBeSent := metrics.map (fun m => toCollectorMetric m startTime)
  let resource : Resource :=
    match metrics with
    | [] => Resource.empty
    | m :: _ => m.resource
  let additionalAttributes :=
    objectAssign collectorMetricExporterBase.attributes
      [("service.name", JsValue.str collectorMetricExporterBase.serviceName)]
  let protoResource := toCollectorResource (some resource) additionalAttributes
  { resourceMetrics :=
      [{ resource := protoResource,
         instrumentationLibraryMetrics :=
           [{ metrics := metricsToBeSent,
              instrumentationLibrary :=
                { name := if name = "" then sdkLibraryName else name,
                  version := sdkVersion } }] }] }

/-! ## Node JSON transport (translated from `utilWithJson.ts`) -/

/-- The destination URL as parsed by `new url.URL(collector.url)`. -/
structure ParsedUrl where
  protocol : String
  hostname : String
  port : String
  pathname : String
deriving DecidableEq

/-- Which client module issues the request: `http` or `https`. -/
inductive RequestModule
  | http
  | https
deriving DecidableEq

/-- The request as constructed by `sendWithJson`: destination options, the
POST method, the JSON content type and the serialized body written to the
request. -/
structure HttpRequest where
  hostname : String
  port : String
  path : String
  method : String
  contentType : String
  requestModule : RequestModule
  body : String
deriving DecidableEq

/-- What the engine observes of one request: a response (whose `statusCode`
may be absent) or a transport-level request error. -/
inductive HttpOutcome
  | response (statusCode : Option ℕ) (statusMessage : String)
  | requestError (message : String)
deriving DecidableEq

/-- `CollectorExporterError`: the payload handed to the error callback. -/
structure CollectorExporterError where
  code : Option ℕ
  message : Option String
deriving DecidableEq

/-- Which callback `sendWithJson` invokes. -/
inductive SendResult
  | success
  | errored (e : CollectorExporterError)
deriving DecidableEq

/-- `sendWithJson`, with the JSON-serialized service request given as `body`
and the network interaction given as `outcome`: it builds a POST request to
the parsed URL, picks the `http` module exactly for the `http:` scheme and the
`https` module otherwise, then invokes the success callback when the response
status code is present, truthy and below 299, the error callback with status
code and status message otherwise, and the error callback with the error
message on a request error.  It is a total function: no case throws. -/
def sendWithJson (url : ParsedUrl) (body : String) (outcome : HttpOutcome) :
    HttpRequest × SendResult :=
  let req : HttpRequest :=
    { hostname := url.hostname, port := url.port, path := url.pathname,
      method := "POST", contentType := "application/json",
      requestModule :=
        if url.protocol = "http:" then RequestModule.http else RequestModule.https,
      body := body }
  let result :=
    match outcome with
    | HttpOutcome.response statusCode statusMessage =>
      match statusCode with
      | some c =>
        if c ≠ 0 ∧ c < 299 then SendResult.success
        else SendResult.errored { code := some c, message := some statusMessage }
      | none => SendResult.errored { code := none, message := some statusMessage }
    | HttpOutcome.requestError msg =>
      SendResult.errored { code := none, message := some msg }
  (req, result)

/-! ## Properties of the key comparator -/

theorem charListLe_total (l1 l2 : List Char) :
    charListLe l1 l2 = true ∨ charListLe l2 l1 = true := by
  induction l1 generalizing l2 with
  | nil => exact Or.inl rfl
  | cons x xs ih =>
    cases l2 with
    | nil => exact Or.inr rfl
    | cons y ys =>
      by_cases hxy : x = y
      · subst hxy
        simpa [charListLe] using ih ys
      · rcases lt_trichotomy x y with h | h | h
        · exact Or.inl (by simp [charListLe, hxy, h])
        · exact absurd h hxy
        · exact Or.inr (by simp [charListLe, Ne.symm hxy, h])

theorem charListLe_trans (l1 l2 l3 : List Char)
    (h12 : charListLe l1 l2 = true) (h23 : charListLe l2 l3 = true) :
    charListLe l1 l3 = true := by
  induction l1 generalizing l2 l3 with
  | nil => rfl
  | cons x xs ih =>
    cases l2 with
    | nil => simp [charListLe] at h12
    | cons y ys =>
      cases l3 with
      | nil => simp [charListLe] at h23
      | cons z zs =>
        by_cases hxy : x = y
        · subst hxy
          by_cases hyz : x = z
          · subst hyz
            simp only [charListLe, if_pos rfl] at h12 h23 ⊢
            exact ih ys zs h12 h23
          · simpa [charListLe, hyz] using (by simpa [charListLe, hyz] using h23 : x < z)
        · have hlt : x < y := by simpa [charListLe, hxy] using h12
          by_cases hyz : y = z
          · subst hyz
            simp [charListLe, hxy, hlt]
          · have hlt2 : y < z := by simpa [charListLe, hyz] using h23
            have hxz : x < z := lt_trans hlt hlt2
            simp [charListLe, ne_of_lt hxz, hxz]

theorem charListLe_antisymm (l1 l2 : List Char)
    (h12 : charListLe l1 l2 = true) (h21 : charListLe l2 l1 = true) : l1 = l2 := by
  induction l1 generalizing l2 with
  | nil =>
    cases l2 with
    | nil => rfl
    | cons y ys => simp [charListLe] at h21
  | cons x xs ih =>
    cases l2 with
    | nil => simp [charListLe] at h12
    | cons y ys =>
      by_cases hxy : x = y
      · subst hxy
        simp only [charListLe, if_pos rfl] at h12 h21
        rw [ih ys h12 h21]
      · have h1 : x < y := by simpa [charListLe, hxy] using h12
        have h2 : y < x := by simpa [charListLe, Ne.symm hxy] using h21
        exact absurd h2 (not_lt_of_lt h1)

theorem keyLe_antisymm (a b : String) (h1 : keyLe a b = true) (h2 : keyLe b a = true) :
    a = b := by
  have h := charListLe_antisymm a.data b.data h1 h2
  cases a
  cases b
  exact congrArg String.mk h

instance : IsTotal (String × String) labelRel :=
  ⟨fun a b => charListLe_total a.1.data b.1.data⟩

instance : IsTrans (String × String) labelRel :=
  ⟨fun a b c h1 h2 => charListLe_trans a.1.data b.1.data c.1.data h1 h2⟩

/-- Two lists of label entries that are sorted by key, are permutations of
each other, and have no duplicate keys, are equal. -/
theorem sorted_perm_nodupkeys_eq :
    ∀ {l1 l2 : List (String × String)},
      List.Sorted labelRel l1 → List.Sorted labelRel l2 → l1.Perm l2 →
      (l1.map Prod.fst).Nodup → l1 = l2 := by
  intro l1
  induction l1 with
  | nil =>
    intro l2 _ _ hp _
    exact hp.nil_eq
  | cons a t1 ih =>
    intro l2 hs1 hs2 hp hnd
    cases l2 with
    | nil => cases hp.eq_nil
    | cons b t2 =>
      rw [List.map_cons, List.nodup_cons] at hnd
      obtain ⟨hnotin, hndtail⟩ := hnd
      have hab : a = b := by
        have hmem_a : a = b ∨ a ∈ t2 := by
          simpa using hp.mem_iff.mp (List.mem_cons_self a t1)
        rcases hmem_a with h | h
        · exact h
        · have hba : labelRel b a := (List.rel_of_sorted_cons hs2) a h
          have hmem_b : b = a ∨ b ∈ t1 := by
            simpa using hp.mem_iff.mpr (List.mem_cons_self b t2)
          rcases hmem_b with h' | h'
          · exact h'.symm
          · have hab' : labelRel a b := (List.rel_of_sorted_cons hs1) b h'
            have hkey : a.1 = b.1 := keyLe_antisymm a.1 b.1 hab' hba
            have hmem : b.1 ∈ t1.map Prod.fst := List.mem_map_of_mem Prod.fst h'
            rw [← hkey] at hmem
            exact absurd hmem hnotin
      subst hab
      have ht : t1.Perm t2 := hp.cons_inv
      have htl : t1 = t2 := ih hs1.of_cons hs2.of_cons ht hndtail
      rw [htl]

/-- Label sets that are equal as key-to-value mappings (permutations with no
duplicate keys) share their canonical hash. -/
theorem hashLabels_congr (l1 l2 : Labels) (hp : l1.Perm l2)
    (hnd : (l1.map Prod.fst).Nodup) : hashLabels l1 = hashLabels l2 := by
  have hsorted : sortLabels l1 = sortLabels l2 := by
    apply sorted_perm_nodupkeys_eq (List.sorted_insertionSort labelRel l1)
      (List.sorted_insertionSort labelRel l2)
    · exact ((List.perm_insertionSort labelRel l1).trans hp).trans
        (List.perm_insertionSort labelRel l2).symm
    · have hmapperm :
          List.Perm ((sortLabels l1).map Prod.fst) (l1.map Prod.fst) :=
        (List.perm_insertionSort labelRel l1).map Prod.fst
      exact hmapperm.nodup_iff.mpr hnd
  unfold hashLabels
  rw [hsorted]

/-! ## Fold lemmas about the instrument models -/

theorem bind_empty (dis : Bool) (labels : Labels) :
    CounterMetric.bind { disabled := dis, instruments := [] } labels
      = (hashLabels labels,
         { disabled := dis, instruments := [(hashLabels labels, (0 : ℤ))] }) := rfl

theorem addBound_single (dis : Bool) (k : String) (v d : ℤ) :
    CounterMetric.addBound { disabled := dis, instruments := [(k, v)] } k d
      = { disabled := dis, instruments := [(k, counterAdd dis v d)] } := by
  simp [CounterMetric.addBound]

theorem foldl_addBound_single (dis : Bool) (k : String) (ds : List ℤ) (v : ℤ) :
    List.foldl (fun c d => CounterMetric.addBound c k d)
        { disabled := dis, instruments := [(k, v)] } ds
      = { disabled := dis, instruments := [(k, List.foldl (counterAdd dis) v ds)] } := by
  induction ds generalizing v with
  | nil => rfl
  | cons d ds ih => simp [addBound_single, ih]

theorem foldl_counterAdd_enabled (ds : List ℤ) (v : ℤ) :
    List.foldl (counterAdd false) v ds
      = v + (ds.filter (fun d => decide (0 ≤ d))).sum := by
  induction ds generalizing v with
  | nil => simp
  | cons d ds ih =>
    by_cases h : d < 0
    · have h0 : ¬ (0 ≤ d) := by omega
      simp [counterAdd, h, ih, h0]
    · have h0 : (0 : ℤ) ≤ d := by omega
      simp [counterAdd, h, ih, h0, add_assoc]

theorem foldl_counterAdd_disabled (ds : List ℤ) (v : ℤ) :
    List.foldl (counterAdd true) v ds = v := by
  induction ds generalizing v with
  | nil => rfl
  | cons d ds ih => simpa [counterAdd] using ih v

theorem foldl_recorderRecord_disabled (absolute : Bool) (vs : List ℤ) (d : Distribution) :
    List.foldl (recorderRecord true absolute) d vs = d := by
  induction vs generalizing d with
  | nil => rfl
  | cons v vs ih => simpa [recorderRecord] using ih d

theorem foldl_batchStep_cancelled (insts : List (String × Distribution))
    (evs : List BatchEvent) :
    List.foldl batchStep { cancelled := true, instruments := insts } evs
      = { cancelled := true, instruments := insts } := by
  induction evs with
  | nil => rfl
  | cons e evs ih =>
    cases e with
    | timeout => simpa [batchStep] using ih
    | observe labels v => simpa [batchStep] using ih

theorem checkpoint_single (dis : Bool) (k : String) (v : ℤ) :
    CounterMetric.checkpoint { disabled := dis, instruments := [(k, v)] } k = some v := by
  simp [CounterMetric.checkpoint, List.lookup]

/-! ## The claims -/

/-- Claim C1: on a bound Counter, the checkpoint value read after collect
equals the sum of the non-negative deltas of the add sequence, and each
negative delta is a silent no-op on the aggregator state. -/
theorem counter_checkpoint_sums_nonnegative_deltas (labels : Labels) (ds : List ℤ) :
    (List.foldl (fun c d => CounterMetric.addBound c (counterNew.bind labels).1 d)
        (counterNew.bind labels).2 ds).checkpoint (counterNew.bind labels).1
      = some ((ds.filter (fun d => decide (0 ≤ d))).sum)
    ∧ ∀ (total delta : ℤ), delta < 0 → counterAdd false total delta = total := by
  constructor
  · show (List.foldl (fun c d => CounterMetric.addBound c (hashLabels labels) d)
        { disabled := false, instruments := [(hashLabels labels, (0 : ℤ))] } ds).checkpoint
        (hashLabels labels)
      = some ((ds.filter (fun d => decide (0 ≤ d))).sum)
    rw [foldl_addBound_single, foldl_counterAdd_enabled, checkpoint_single, zero_add]
  · intro total delta h
    simp [counterAdd, h]

/-- Witness for C1: a concrete negative delta is a no-op. -/
theorem counter_checkpoint_sums_nonnegative_deltas_witness :
    ((-100 : ℤ) < 0) ∧ counterAdd false 10 (-100) = 10 :=
  ⟨by decide, (counter_checkpoint_sums_nonnegative_deltas [] []).2 10 (-100) (by decide)⟩

/-- Claim C2: once the batch-observer timeout fires before any observe, the
result is permanently cancelled for the cycle: no subsequent event changes the
state, the instrument registry stays empty (zero records at the checkpoint),
the bound instrument for any attempted label set is absent (untouched initial
state), and any event fold from a cancelled state is the identity. -/
theorem batch_observer_timeout_cancels (evs : List BatchEvent) (labels : Labels) :
    batchRun (BatchEvent.timeout :: evs) = { cancelled := true, instruments := [] }
    ∧ (batchRun (BatchEvent.timeout :: evs)).instruments.lookup (hashLabels labels) = none
    ∧ ∀ (insts : List (String × Distribution)),
        List.foldl batchStep { cancelled := true, instruments := insts } evs
          = { cancelled := true, instruments := insts } := by
  have h : batchRun (BatchEvent.timeout :: evs)
      = { cancelled := true, instruments := [] } := by
    unfold batchRun
    rw [List.foldl_cons]
    show List.foldl batchStep { cancelled := true, instruments := [] } evs = _
    exact foldl_batchStep_cancelled [] evs
  exact ⟨h, by rw [h]; rfl, fun insts => foldl_batchStep_cancelled insts evs⟩

/-- Claim C4: the MinMaxLastSumCount aggregator starts at
(+infinity, -infinity, 0, 0, 0); each accepted update folds min, max, last,
sum and count; an absolute (default) ValueRecorder silently drops negative
values; a non-absolute one records -10 then 50 into
(count 2, last 50, max 50, min -10, sum 40). -/
theorem value_recorder_distribution_behavior :
    distInit = { min := none, max := none, last := 0, sum := 0, count := 0 }
    ∧ (∀ (d : Distribution) (v : ℤ),
        d.update v = { min := minUpdate d.min v, max := maxUpdate d.max v,
                       last := v, sum := d.sum + v, count := d.count + 1 })
    ∧ (∀ (d : Distribution) (v : ℤ), v < 0 → recorderRecord false true d v = d)
    ∧ recorderRecord false false (recorderRecord false false distInit (-10)) 50
        = { min := some (-10), max := some 50, last := 50, sum := 40, count := 2 } := by
  refine ⟨rfl, fun d v => rfl, ?_, by decide⟩
  intro d v h
  simp [recorderRecord, h]

/-- Witness for C4: a concrete negative value is dropped by the default
(absolute) recorder. -/
theorem value_recorder_distribution_behavior_witness :
    ((-10 : ℤ) < 0) ∧ recorderRecord false true distInit (-10) = distInit :=
  ⟨by decide, value_recorder_distribution_behavior.2.2.1 distInit (-10) (by decide)⟩

/-- Claim C7: a disabled instrument still creates and retains a bound
instrument on bind, but no sequence of writes ever mutates an aggregator: the
counter checkpoint stays at 0, any disabled Sum fold is the identity, any
disabled distribution fold is the identity, and the initial distribution state
is the zero state. -/
theorem disabled_instrument_never_mutates (labels : Labels) (ds vs : List ℤ)
    (s : ℤ) (d : Distribution) (absolute : Bool) :
    (CounterMetric.bind { disabled := true, instruments := [] } labels).2.instruments.length = 1
    ∧ (List.foldl (fun c dl => CounterMetric.addBound c
          (CounterMetric.bind { disabled := true, instruments := [] } labels).1 dl)
        (CounterMetric.bind { disabled := true, instruments := [] } labels).2 ds).checkpoint
        (CounterMetric.bind { disabled := true, instruments := [] } labels).1 = some 0
    ∧ List.foldl (counterAdd true) s ds = s
    ∧ List.foldl (recorderRecord true absolute) d vs = d
    ∧ distInit = { min := none, max := none, last := 0, sum := 0, count := 0 } := by
  refine ⟨rfl, ?_, foldl_counterAdd_disabled ds s,
    foldl_recorderRecord_disabled absolute vs d, rfl⟩
  show (List.foldl (fun c dl => CounterMetric.addBound c (hashLabels labels) dl)
      { disabled := true, instruments := [(hashLabels labels, (0 : ℤ))] } ds).checkpoint
      (hashLabels labels) = some 0
  rw [foldl_addBound_single, foldl_counterAdd_disabled, checkpoint_single]

theorem bind_found (c : CounterMetric) (labels : Labels) (v : ℤ)
    (hmem : c.instruments.lookup (hashLabels labels) = some v) :
    c.bind labels = (hashLabels labels, c) := by
  simp [CounterMetric.bind, hmem]

/-- Claim C3: two label sets that are equal as key-to-value mappings share
their canonical hash; binding the second after a write through the first
returns the identical bound instrument (same identity, no new registry entry),
and the two writes of 10 accumulate to a checkpoint value of 20. -/
theorem bind_same_labels_same_instrument (l1 l2 : Labels) (hp : l1.Perm l2)
    (hnd : (l1.map Prod.fst).Nodup) :
    hashLabels l1 = hashLabels l2
    ∧ (counterNew.bind l1).1 = (counterNew.bind l2).1
    ∧ ((counterNew.bind l1).2.addBound (counterNew.bind l1).1 10).bind l2
        = ((counterNew.bind l1).1, (counterNew.bind l1).2.addBound (counterNew.bind l1).1 10)
    ∧ ((((counterNew.bind l1).2.addBound (counterNew.bind l1).1 10).bind l2).2.addBound
          ((((counterNew.bind l1).2.addBound (counterNew.bind l1).1 10).bind l2).1) 10).checkpoint
        (counterNew.bind l1).1 = some 20 := by
  have hh : hashLabels l1 = hashLabels l2 := hashLabels_congr l1 l2 hp hnd
  have hadd1 : CounterMetric.addBound
      { disabled := false, instruments := [(hashLabels l1, (0 : ℤ))] } (hashLabels l1) 10
      = { disabled := false, instruments := [(hashLabels l1, (10 : ℤ))] } := by
    rw [addBound_single]
    norm_num [counterAdd]
  have hb2 : CounterMetric.bind
      { disabled := false, instruments := [(hashLabels l1, (10 : ℤ))] } l2
      = (hashLabels l1, { disabled := false, instruments := [(hashLabels l1, (10 : ℤ))] }) := by
    have := bind_found { disabled := false, instruments := [(hashLabels l1, (10 : ℤ))] } l2 10
      (by rw [← hh]; simp [List.lookup])
    rw [this, hh]
  refine ⟨hh, hh, ?_, ?_⟩
  · show (CounterMetric.addBound
        { disabled := false, instruments := [(hashLabels l1, (0 : ℤ))] } (hashLabels l1) 10).bind l2
      = (hashLabels l1, CounterMetric.addBound
          { disabled := false, instruments := [(hashLabels l1, (0 : ℤ))] } (hashLabels l1) 10)
    rw [hadd1, hb2]
  · show CounterMetric.checkpoint
        (CounterMetric.addBound
          ((CounterMetric.bind
            (CounterMetric.addBound
              { disabled := false, instruments := [(hashLabels l1, (0 : ℤ))] }
              (hashLabels l1) 10) l2).2)
          ((CounterMetric.bind
            (CounterMetric.addBound
              { disabled := false, instruments := [(hashLabels l1, (0 : ℤ))] }
              (hashLabels l1) 10) l2).1)
          10)
        (hashLabels l1) = some 20
    rw [hadd1, hb2]
    show CounterMetric.checkpoint
        (CounterMetric.addBound
          { disabled := false, instruments := [(hashLabels l1, (10 : ℤ))] }
          (hashLabels l1) 10)
        (hashLabels l1) = some 20
    rw [addBound_single, checkpoint_single]
    norm_num [counterAdd]

/-- Witness for C3: the two key orders of the test suite's label set. -/
theorem bind_same_labels_same_instrument_witness :
    hashLabels [("keyb", "value2"), ("keya", "value1")]
      = hashLabels [("keya", "value1"), ("keyb", "value2")]
    ∧ (counterNew.bind [("keyb", "value2"), ("keya", "value1")]).1
      = (counterNew.bind [("keya", "value1"), ("keyb", "value2")]).1 := by
  have h := bind_same_labels_same_instrument
    [("keyb", "value2"), ("keya", "value1")] [("keya", "value1"), ("keyb", "value2")]
    (List.Perm.swap ("keya", "value1") ("keyb", "value2") []) (by decide)
  exact ⟨h.1, h.2.1⟩

theorem lookup_append_of_none {β : Type} (l1 l2 : List (String × β)) (name : String)
    (h : l1.lookup name = none) : (l1 ++ l2).lookup name = l2.lookup name := by
  induction l1 with
  | nil => rfl
  | cons p t ih =>
    by_cases hk : name == p.1
    · simp [List.lookup, hk] at h
    · have hb : (name == p.1) = false := by simpa using hk
      simp only [List.lookup, List.cons_append, hb] at h ⊢
      exact ih h

theorem filter_key_eq_nil_of_lookup_none {β : Type} (l : List (String × β)) (name : String)
    (h : l.lookup name = none) : l.filter (fun p => decide (p.1 = name)) = [] := by
  induction l with
  | nil => rfl
  | cons p t ih =>
    by_cases hk : p.1 = name
    · simp [List.lookup, hk] at h
    · have hb : (name == p.1) = false := by
        simp [Ne.symm hk]
      simp only [List.lookup, hb] at h
      simp [List.filter, hk, ih h]

/-- Claim C5: a second create call on an already-registered name returns the
original (first-registered) instrument, with any differing configuration
silently ignored: no new registration happens, and the checkpoint holds
exactly one record for that name, whose descriptor reflects the first
registration's configuration only. -/
theorem duplicate_name_returns_original (m : Meter) (name : String)
    (k1 k2 : MetricKind) (o1 o2 : MetricOptions)
    (hv : validName name = true) (hnew : m.registry.lookup name = none) :
    ((m.createMetric k1 name o1).2.createMetric k2 name o2).1
        = (m.createMetric k1 name o1).1
    ∧ (m.createMetric k1 name o1).1 = CreatedMetric.metric (mkDescriptor name k1 o1)
    ∧ ((m.createMetric k1 name o1).2.createMetric k2 name o2).2
        = (m.createMetric k1 name o1).2
    ∧ (((m.createMetric k1 name o1).2.createMetric k2 name o2).2.registry.filter
        (fun p => decide (p.1 = name))).length = 1 := by
  have h1 : m.createMetric k1 name o1
      = (CreatedMetric.metric (mkDescriptor name k1 o1),
         { registry := m.registry ++ [(name, mkDescriptor name k1 o1)] }) := by
    simp [Meter.createMetric, hv, hnew]
  have hl2 : (m.registry ++ [(name, mkDescriptor name k1 o1)]).lookup name
      = some (mkDescriptor name k1 o1) := by
    rw [lookup_append_of_none m.registry _ name hnew]
    simp [List.lookup]
  have h2 : (Meter.mk (m.registry ++ [(name, mkDescriptor name k1 o1)])).createMetric
        k2 name o2
      = (CreatedMetric.metric (mkDescriptor name k1 o1),
         Meter.mk (m.registry ++ [(name, mkDescriptor name k1 o1)])) := by
    simp [Meter.createMetric, hv, hl2]
  rw [h1]
  refine ⟨?_, rfl, ?_, ?_⟩
  · rw [h2]
  · rw [h2]
  · rw [h2]
    show ((m.registry ++ [(name, mkDescriptor name k1 o1)]).filter
        (fun p => decide (p.1 = name))).length = 1
    rw [List.filter_append, filter_key_eq_nil_of_lookup_none m.registry name hnew]
    simp

/-- Witness for C5: re-creating `name1` with an INT value type on a fresh
meter returns the first instrument. -/
theorem duplicate_name_returns_original_witness :
    validName "name1" = true
    ∧ (((Meter.mk []).createMetric MetricKind.COUNTER "name1" defaultOptions).2.createMetric
          MetricKind.COUNTER "name1"
          { description := "", unit := "1", disabled := false, absolute := true,
            valueType := ValueType.INT }).1
      = ((Meter.mk []).createMetric MetricKind.COUNTER "name1" defaultOptions).1 :=
  ⟨by decide,
   (duplicate_name_returns_original (Meter.mk []) "name1" MetricKind.COUNTER
      MetricKind.COUNTER defaultOptions
      { description := "", unit := "1", disabled := false, absolute := true,
        valueType := ValueType.INT }
      (by decide) rfl).1⟩

/-- Claim C6: the six names of the test suite validate as the spec says; a
create call with an invalid or empty name returns the no-op instrument and
registers nothing (construction never throws, and writes through the no-op
instrument can never reach a checkpoint since nothing was registered); a valid
name never yields the no-op instrument. -/
theorem invalid_name_yields_noop :
    (validName "" = false ∧ validName "1name" = false ∧ validName "_name" = false
      ∧ validName "name with invalid characters^&*(" = false
      ∧ validName "name1" = true
      ∧ validName "Name_with-all.valid_CharacterClasses" = true)
    ∧ (∀ (m : Meter) (kind : MetricKind) (name : String) (opts : MetricOptions),
        validName name = false →
          m.createMetric kind name opts = (CreatedMetric.noop, m))
    ∧ (∀ (m : Meter) (kind : MetricKind) (name : String) (opts : MetricOptions),
        validName name = true →
          (m.createMetric kind name opts).1 ≠ CreatedMetric.noop) := by
  refine ⟨⟨by decide, by decide, by decide, by decide, by decide, by decide⟩, ?_, ?_⟩
  · intro m kind name opts h
    simp [Meter.createMetric, h]
  · intro m kind name opts h
    cases hl : m.registry.lookup name with
    | none => simp [Meter.createMetric, h, hl]
    | some d => simp [Meter.createMetric, h, hl]

/-- Witness for C6: the empty name yields the no-op instrument on a fresh
meter; `name1` does not. -/
theorem invalid_name_yields_noop_witness :
    (Meter.mk []).createMetric MetricKind.COUNTER "" defaultOptions
      = (CreatedMetric.noop, Meter.mk [])
    ∧ ((Meter.mk []).createMetric MetricKind.COUNTER "name1" defaultOptions).1
      ≠ CreatedMetric.noop :=
  ⟨invalid_name_yields_noop.2.1 (Meter.mk []) MetricKind.COUNTER "" defaultOptions (by decide),
   invalid_name_yields_noop.2.2 (Meter.mk []) MetricKind.COUNTER "name1" defaultOptions
    (by decide)⟩

/-- Counterexample for C8: a VALUE_RECORDER descriptor maps to the
INVALID_TEMPORALITY sentinel, not to DELTA as claimed: only the legacy MEASURE
member hits the DELTA branch of `toCollectorTemporality`. -/
theorem temporality_value_recorder_counterexample :
    toCollectorTemporality
        (MetricDescriptor.mk "recorder" "" "1" MetricKind.VALUE_RECORDER ValueType.DOUBLE false)
      = MetricDescriptorTemporality.INVALID_TEMPORALITY
    ∧ MetricDescriptorTemporality.INVALID_TEMPORALITY
        ≠ MetricDescriptorTemporality.DELTA :=
  ⟨rfl, by decide⟩

/-- Claim C8 (amended): `toCollectorTemporality` maps COUNTER to CUMULATIVE,
OBSERVER to INSTANTANEOUS and MEASURE to DELTA; every other metric kind —
including VALUE_RECORDER — maps to the INVALID_TEMPORALITY sentinel. -/
theorem temporality_mapping (n ds u : String) (vt : ValueType) (mono : Bool) :
    toCollectorTemporality (MetricDescriptor.mk n ds u MetricKind.COUNTER vt mono)
        = MetricDescriptorTemporality.CUMULATIVE
    ∧ toCollectorTemporality (MetricDescriptor.mk n ds u MetricKind.OBSERVER vt mono)
        = MetricDescriptorTemporality.INSTANTANEOUS
    ∧ toCollectorTemporality (MetricDescriptor.mk n ds u MetricKind.MEASURE vt mono)
        = MetricDescriptorTemporality.DELTA
    ∧ toCollectorTemporality (MetricDescriptor.mk n ds u MetricKind.UP_DOWN_COUNTER vt mono)
        = MetricDescriptorTemporality.INVALID_TEMPORALITY
    ∧ toCollectorTemporality (MetricDescriptor.mk n ds u MetricKind.VALUE_RECORDER vt mono)
        = MetricDescriptorTemporality.INVALID_TEMPORALITY
    ∧ toCollectorTemporality (MetricDescriptor.mk n ds u MetricKind.VALUE_OBSERVER vt mono)
        = MetricDescriptorTemporality.INVALID_TEMPORALITY
    ∧ toCollectorTemporality (MetricDescriptor.mk n ds u MetricKind.BATCH_OBSERVER vt mono)
        = MetricDescriptorTemporality.INVALID_TEMPORALITY :=
  ⟨rfl, rfl, rfl, rfl, rfl, rfl, rfl⟩

/-- Counterexample for C9: a response that carries the status code 0 — a
status code below 299 — does not invoke the success callback, because the
code's truthiness guard on `statusCode` sends it to the error callback. -/
theorem send_status_zero_counterexample :
    (sendWithJson (ParsedUrl.mk "http:" "localhost" "4317" "/v1/metrics") "x"
        (HttpOutcome.response (some 0) "ok")).2 ≠ SendResult.success
    ∧ (0 : ℕ) < 299 :=
  ⟨by decide, by decide⟩

/-- Claim C9 (amended): `sendWithJson` issues a POST, picks the plain-HTTP
module exactly for the `http:` scheme, invokes the success callback exactly
when the response status code is present, nonzero and below 299, otherwise
invokes the error callback with the status code and status message (or, on a
request error, with the error message), and never throws (it is total). -/
theorem send_with_json_behavior (url : ParsedUrl) (body : String)
    (sc : Option ℕ) (sm msg : String) :
    (sendWithJson url body (HttpOutcome.response sc sm)).1.method = "POST"
    ∧ (sendWithJson url body (HttpOutcome.requestError msg)).1.method = "POST"
    ∧ ((sendWithJson url body (HttpOutcome.response sc sm)).1.requestModule
          = RequestModule.http
        ↔ url.protocol = "http:")
    ∧ ((sendWithJson url body (HttpOutcome.response sc sm)).2 = SendResult.success
        ↔ ∃ c, sc = some c ∧ c ≠ 0 ∧ c < 299)
    ∧ (∀ c, sc = some c → ¬(c ≠ 0 ∧ c < 299) →
        (sendWithJson url body (HttpOutcome.response sc sm)).2
          = SendResult.errored (CollectorExporterError.mk (some c) (some sm)))
    ∧ (sc = none →
        (sendWithJson url body (HttpOutcome.response sc sm)).2
          = SendResult.errored (CollectorExporterError.mk none (some sm)))
    ∧ (sendWithJson url body (HttpOutcome.requestError msg)).2
        = SendResult.errored (CollectorExporterError.mk none (some msg)) := by
  refine ⟨rfl, rfl, ?_, ?_, ?_, ?_, rfl⟩
  · by_cases h : url.protocol = "http:"
    · simp [sendWithJson, h]
    · simp [sendWithJson, h]
  · cases sc with
    | none => simp [sendWithJson]
    | some c =>
      by_cases hc : c ≠ 0 ∧ c < 299
      · simp [sendWithJson, hc]
      · simp [sendWithJson, hc]
  · intro c hsc hc
    subst hsc
    simp [sendWithJson, hc]
  · intro hsc
    subst hsc
    rfl

/-- Witness for C9: a 500 response and a response without a status code both
reach the error callback with the right payload. -/
theorem send_with_json_behavior_witness :
    (sendWithJson (ParsedUrl.mk "https:" "collector" "443" "/v1/metrics") "x"
        (HttpOutcome.response (some 500) "fail")).2
      = SendResult.errored (CollectorExporterError.mk (some 500) (some "fail"))
    ∧ (sendWithJson (ParsedUrl.mk "https:" "collector" "443" "/v1/metrics") "x"
        (HttpOutcome.response none "gone")).2
      = SendResult.errored (CollectorExporterError.mk none (some "gone")) :=
  ⟨(send_with_json_behavior (ParsedUrl.mk "https:" "collector" "443" "/v1/metrics") "x"
      (some 500) "fail" "m").2.2.2.2.1 500 rfl (by decide),
   (send_with_json_behavior (ParsedUrl.mk "https:" "collector" "443" "/v1/metrics") "x"
      none "gone" "m").2.2.2.2.2.1 rfl⟩

/-- Claim C10: `toCollectorExportMetricServiceRequest` always produces exactly
one ResourceMetrics envelope holding exactly one InstrumentationLibraryMetrics
block; the envelope's resource comes from the first record (differing
resources of later records are silently grouped under it), and the empty
resource is used for an empty record list. -/
theorem export_request_single_envelope (metrics : List MetricRecord) (startTime : ℕ)
    (base : CollectorMetricExporterBase) (name : String) :
    (toCollectorExportMetricServiceRequest metrics startTime base name).resourceMetrics.length = 1
    ∧ (toCollectorExportMetricServiceRequest metrics startTime base name).resourceMetrics.map
        (fun rm => rm.instrumentationLibraryMetrics.length) = [1]
    ∧ (toCollectorExportMetricServiceRequest metrics startTime base name).resourceMetrics.map
        (fun rm => rm.resource)
      = [toCollectorResource
          (some (match metrics with
                 | [] => Resource.empty
                 | m :: _ => m.resource))
          (objectAssign base.attributes
            [("service.name", JsValue.str base.serviceName)])]
    ∧ (∀ (m0 : MetricRecord) (t1 t2 : List MetricRecord),
        (toCollectorExportMetricServiceRequest (m0 :: t1) startTime base name).resourceMetrics.map
            (fun rm => rm.resource)
          = (toCollectorExportMetricServiceRequest (m0 :: t2) startTime base name).resourceMetrics.map
            (fun rm => rm.resource))
    ∧ (toCollectorExportMetricServiceRequest [] startTime base name).resourceMetrics.map
        (fun rm => rm.resource)
      = [toCollectorResource (some Resource.empty)
          (objectAssign base.attributes
            [("service.name", JsValue.str base.serviceName)])] := by
  refine ⟨rfl, rfl, ?_, fun m0 t1 t2 => rfl, rfl⟩
  cases metrics with
  | nil => rfl
  | cons m t => rfl

end OTel

